import Mathlib

/-!
Verification of the parallel download orchestration subsystem of the
yt-dlp-Manager repository (src/Yt_downloader.py, src/category_manager.py),
via a shallow embedding of the relevant functions.  The external
extraction/download engine is modelled as an explicit parameter
(a function from attempt index to success, resp. a function from an
optional cookie path to an extraction result), exactly mirroring how the
Python source calls into `yt_dlp`.
-/

namespace YtDlpManager

/-- Python `int(retries)` with the `except: retries = 3` fallback of
`download_worker` (Yt_downloader.py lines 224-227): `none` models an
argument on which `int(...)` raises, `some n` a convertible argument. -/
def normRetries : Option Int → Int
  | none => 3
  | some n => n

/-- The retry loop body of `download_worker` (Yt_downloader.py lines
229-264): `engine i` tells whether the engine call on 0-indexed attempt
`i` succeeds (`ydl.download` returning) or fails (raising).  Starting at
attempt index `i` with `fuel` attempts remaining, returns the success
flag and the total number of engine invocations made from attempt 0
(i.e. the 1-based index of the successful attempt, or `i + fuel` when
every remaining attempt fails). -/
def workerGo (engine : Nat → Bool) (i : Nat) : Nat → Bool × Nat
  | 0 => (false, i)
  | fuel + 1 => if engine i then (true, i + 1) else workerGo engine (i + 1) fuel

/-- `download_worker` (Yt_downloader.py lines 223-264), abstracted over
the engine: normalises the `retries` argument as the source does, then
runs `for attempt in range(retries)`.  Returns
`(succeeded, number of engine invocations)`; the source returns only the
boolean, the invocation count is the observable number of calls into
`yt_dlp.YoutubeDL(...).download`. -/
def download_worker (retriesArg : Option Int) (engine : Nat → Bool) : Bool × Nat :=
  workerGo engine 0 (normRetries retriesArg).toNat

theorem workerGo_all_fail (engine : Nat → Bool) :
    ∀ fuel i, (∀ j, i ≤ j → j < i + fuel → engine j = false) →
      workerGo engine i fuel = (false, i + fuel) := by
  intro fuel
  induction fuel with
  | zero => intro i _; simp [workerGo]
  | succ k ih =>
    intro i h
    have hi : engine i = false := h i (Nat.le_refl i) (by omega)
    have : workerGo engine (i + 1) k = (false, i + 1 + k) := by
      apply ih
      intro j hj1 hj2
      exact h j (by omega) (by omega)
    simp [workerGo, hi, this]
    omega

theorem workerGo_first_success (engine : Nat → Bool) :
    ∀ fuel i a, i ≤ a → a < i + fuel → engine a = true →
      (∀ j, i ≤ j → j < a → engine j = false) →
      workerGo engine i fuel = (true, a + 1) := by
  intro fuel
  induction fuel with
  | zero => intro i a _ h2 _ _; omega
  | succ k ih =>
    intro i a h1 h2 ha hprev
    by_cases hia : i = a
    · subst hia
      simp [workerGo, ha]
    · have hi : engine i = false := hprev i (Nat.le_refl i) (by omega)
      have : workerGo engine (i + 1) k = (true, a + 1) := by
        apply ih (i + 1) a (by omega) (by omega) ha
        intro j hj1 hj2
        exact hprev j (by omega) hj2
      simp [workerGo, hi, this]

theorem workerGo_count_le (engine : Nat → Bool) :
    ∀ fuel i, (workerGo engine i fuel).2 ≤ i + fuel := by
  intro fuel
  induction fuel with
  | zero => intro i; simp [workerGo]
  | succ k ih =>
    intro i
    have hrec := ih (i + 1)
    by_cases hi : engine i = true
    · simp [workerGo, hi]
    · simp only [Bool.not_eq_true] at hi
      simp [workerGo, hi]
      omega

/-- C1: for `download_worker` with retry limit `r ≥ 1`: if the engine
fails on every attempt, the worker makes exactly `r` engine invocations
and returns a failed outcome; if the engine first succeeds on attempt
`a` (1-based, `1 ≤ a ≤ r`), the worker returns a successful outcome
after exactly `a` invocations.  The invocation count is the
`attemptsUsed` of the outcome. -/
theorem download_worker_retry_contract (r : Nat) (engine : Nat → Bool) (hr : 1 ≤ r) :
    ((∀ i, i < r → engine i = false) →
      download_worker (some (r : Int)) engine = (false, r)) ∧
    (∀ a, 1 ≤ a → a ≤ r → engine (a - 1) = true →
      (∀ i, i < a - 1 → engine i = false) →
      download_worker (some (r : Int)) engine = (true, a)) := by
  have hnorm : (normRetries (some (r : Int))).toNat = r := by
    simp [normRetries]
  constructor
  · intro hfail
    unfold download_worker
    rw [hnorm]
    have := workerGo_all_fail engine r 0 (by intro j _ hj; exact hfail j (by omega))
    simpa using this
  · intro a ha1 har hsucc hprev
    unfold download_worker
    rw [hnorm]
    have := workerGo_first_success engine r 0 (a - 1) (by omega) (by omega) hsucc
      (by intro j _ hj; exact hprev j hj)
    rw [this]
    congr 1
    omega

/-- Witness for C1 at `r = 3`: an engine failing on all attempts gives
`(false, 3)`; an engine first succeeding on attempt 2 gives `(true, 2)`. -/
theorem download_worker_retry_contract_witness :
    download_worker (some 3) (fun _ => false) = (false, 3) ∧
    download_worker (some 3) (fun i => decide (i = 1)) = (true, 2) := by
  constructor
  · exact (download_worker_retry_contract 3 (fun _ => false) (by decide)).1
      (by intro i _; rfl)
  · exact (download_worker_retry_contract 3 (fun i => decide (i = 1)) (by decide)).2
      2 (by decide) (by decide) (by decide) (by intro i hi; interval_cases i <;> decide)

/-- C10: a `retries` argument on which `int(...)` raises makes the worker
behave exactly as if the retry limit were 3, and in particular at most 3
engine invocations are made; the worker itself does not raise (it is a
total function). -/
theorem download_worker_unconvertible_retries (engine : Nat → Bool) :
    download_worker none engine = download_worker (some 3) engine ∧
    (download_worker none engine).2 ≤ 3 := by
  constructor
  · rfl
  · have := workerGo_count_le engine (normRetries none).toNat 0
    simpa [download_worker] using this

/-- `pat.isPrefixOf l` for character lists, written out to keep the
development self-contained. -/
def leadsWith : List Char → List Char → Bool
  | [], _ => true
  | _ :: _, [] => false
  | a :: as, b :: bs => a = b && leadsWith as bs

/-- Python `pat in s` (contiguous substring test) on character lists. -/
def containsSeg (pat : List Char) : List Char → Bool
  | [] => pat.isEmpty
  | c :: t => leadsWith pat (c :: t) || containsSeg pat t

/-- Python `str.lower()` restricted to its ASCII action, as a character
list (the auth markers are ASCII, so this is the behaviour
`handle_playlist` relies on). -/
def lowerChars (s : String) : List Char :=
  s.toList.map Char.toLower

/-- Python `pat in s.lower()` on strings. -/
def strContainsLower (s pat : String) : Bool :=
  containsSeg pat.toList (lowerChars s)

/-- The auth-marker test of `handle_playlist` (Yt_downloader.py line
200): `"login" in str(e).lower() or "private" in str(e).lower()`. -/
def authRestricted (e : String) : Bool :=
  strContainsLower e "login" || strContainsLower e "private"

/-- One child entry of an extraction result, exposing its url
(`e["url"]`, Yt_downloader.py line 218). -/
structure MediaEntry where
  url : String
  deriving DecidableEq, Repr

/-- An extraction result as `handle_playlist` inspects it:
`entries = none` models a result without a truthy-relevant `"entries"`
key (absent or `None`); `some l` a result whose `"entries"` is the list
`l`, whose members may themselves be null (`none`). -/
structure MediaInfo where
  entries : Option (List (Option MediaEntry))
  deriving DecidableEq, Repr

/-- The environment of one `handle_playlist` call: `extract c` is the
outcome of `try_extract` with cookie file `c` (Yt_downloader.py lines
190-195), either a raised exception message or an info result;
`cookieInput` is the (stripped) answer to the cookies prompt and
`cookieExists` the value of `os.path.exists` on it (lines 202-203). -/
structure ResolveEnv where
  extract : Option String → Except String MediaInfo
  cookieInput : String
  cookieExists : Bool

/-- The tail of `handle_playlist` (Yt_downloader.py lines 216-220): with
an extraction result in hand, expand a collection into its non-null
children's urls, else return the original url. -/
def collectOrSelf (url : String) (info : MediaInfo) : List String :=
  match info.entries with
  | some l => if l.isEmpty then [url] else (l.filterMap id).map MediaEntry.url
  | none => [url]

/-- `handle_playlist` (Yt_downloader.py lines 187-220), abstracted over
the engine and the cookie prompt. -/
def handle_playlist (url : String) (env : ResolveEnv) : List String :=
  match env.extract none with
  | Except.ok info => collectOrSelf url info
  | Except.error e =>
    if authRestricted e then
      if env.cookieInput != "" && env.cookieExists then
        match env.extract (some env.cookieInput) with
        | Except.ok info => collectOrSelf url info
        | Except.error _ => [url]
      else []
    else [url]

/-- The sequence of engine extraction calls `handle_playlist` makes, in
order, each with the cookie-file argument it passes: mirrors the control
flow of Yt_downloader.py lines 197-214. -/
def handle_playlist_calls (env : ResolveEnv) : List (Option String) :=
  match env.extract none with
  | Except.ok _ => [none]
  | Except.error e =>
    if authRestricted e then
      if env.cookieInput != "" && env.cookieExists then
        [none, some env.cookieInput]
      else [none]
    else [none]

/-- Environment where extraction always fails with an auth-marker
message, and a cookie path is supplied and exists: the retry also
fails. -/
def authRetryFailEnv : ResolveEnv where
  extract := fun _ => Except.error "This video is private"
  cookieInput := "/tmp/cookies.txt"
  cookieExists := true

/-- Environment where the first extraction fails with an auth-marker
message, and the retry with a cookie attached succeeds on a 2-item
collection. -/
def authRetryOkEnv : ResolveEnv where
  extract := fun c =>
    match c with
    | none => Except.error "Login required"
    | some _ => Except.ok { entries := some [some ⟨"a"⟩, some ⟨"b"⟩] }
  cookieInput := "/tmp/cookies.txt"
  cookieExists := true

/-- C2 counterexample: when the first extraction fails with an auth
marker, a credential is supplied and exists, and the retry also fails,
`handle_playlist` returns the original url as a single item — not the
empty sequence the claim states. -/
theorem handle_playlist_retry_fail_not_empty :
    handle_playlist "u" authRetryFailEnv = ["u"] ∧
    handle_playlist "u" authRetryFailEnv ≠ [] := by
  have h1 : handle_playlist "u" authRetryFailEnv = ["u"] := by
    have ha : authRestricted "This video is private" = true := by decide
    simp [handle_playlist, authRetryFailEnv, ha]
  exact ⟨h1, by rw [h1]; simp⟩

/-- C2 (amended): on a first extraction failing with an auth marker,
with a credential supplied and existing, `handle_playlist` calls the
engine exactly once more with the credential attached and, on success,
proceeds normally; if that retry also fails it returns the original url
as a single item; with no usable credential it returns the empty
sequence. -/
theorem handle_playlist_auth_path (url : String) (env : ResolveEnv) (e : String)
    (hf : env.extract none = Except.error e) (ha : authRestricted e = true) :
    ((env.cookieInput != "" && env.cookieExists) = true →
       handle_playlist_calls env = [none, some env.cookieInput] ∧
       (∀ info, env.extract (some env.cookieInput) = Except.ok info →
          handle_playlist url env = collectOrSelf url info) ∧
       (∀ e2, env.extract (some env.cookieInput) = Except.error e2 →
          handle_playlist url env = [url])) ∧
    ((env.cookieInput != "" && env.cookieExists) = false →
       handle_playlist url env = []) := by
  constructor
  · intro hc
    refine ⟨?_, ?_, ?_⟩
    · simp [handle_playlist_calls, hf, ha, hc]
    · intro info hinfo
      simp [handle_playlist, hf, ha, hc, hinfo]
    · intro e2 he2
      simp [handle_playlist, hf, ha, hc, he2]
  · intro hc
    simp [handle_playlist, hf, ha, hc]

/-- Witness for C2 (amended): first extraction fails with "Login
required", the cookie retry succeeds on a 2-item collection; exactly two
engine calls are made, the second with the credential attached, and the
result is the children's urls. -/
theorem handle_playlist_auth_path_witness :
    handle_playlist_calls authRetryOkEnv = [none, some "/tmp/cookies.txt"] ∧
    handle_playlist "u" authRetryOkEnv = ["a", "b"] := by
  have h := handle_playlist_auth_path "u" authRetryOkEnv "Login required" rfl (by decide)
  refine ⟨(h.1 (by decide)).1, ?_⟩
  have h2 := (h.1 (by decide)).2.1 { entries := some [some ⟨"a"⟩, some ⟨"b"⟩] } rfl
  rw [h2]
  rfl

/-- C3: when extraction succeeds with a non-empty child-entry list,
`handle_playlist` returns exactly the non-null children's urls, in
order; children are returned verbatim, never recursively expanded. -/
theorem handle_playlist_collection (url : String) (env : ResolveEnv)
    (info : MediaInfo) (l : List (Option MediaEntry))
    (hok : env.extract none = Except.ok info) (hl : info.entries = some l)
    (hne : l ≠ []) :
    handle_playlist url env = (l.filterMap id).map MediaEntry.url := by
  simp [handle_playlist, hok, collectOrSelf, hl, hne]

/-- Environment whose extraction reports 3 child entries, one of which
is itself a collection-looking url. -/
def collectionEnv : ResolveEnv where
  extract := fun _ => Except.ok
    { entries := some [some ⟨"c1"⟩, some ⟨"https://example.com/playlist2"⟩, some ⟨"c3"⟩] }
  cookieInput := ""
  cookieExists := false

/-- Witness for C3: a stub reporting 3 child entries yields exactly the
3 children's urls, the collection-looking child returned verbatim. -/
theorem handle_playlist_collection_witness :
    handle_playlist "https://example.com/playlist" collectionEnv =
      ["c1", "https://example.com/playlist2", "c3"] := by
  have h := handle_playlist_collection "https://example.com/playlist" collectionEnv
    { entries := some [some ⟨"c1"⟩, some ⟨"https://example.com/playlist2"⟩, some ⟨"c3"⟩] }
    [some ⟨"c1"⟩, some ⟨"https://example.com/playlist2"⟩, some ⟨"c3"⟩]
    rfl rfl (by decide)
  rw [h]
  rfl

/-- C4: `handle_playlist` is total over every engine behaviour — its
result is always the empty list, the original url as a single item, or
the expansion of an info the engine returned (never an escaped
exception); and on an extraction failure whose message lacks the auth
marker it returns the original url as a single item. -/
theorem handle_playlist_never_raises (url : String) (env : ResolveEnv) :
    (handle_playlist url env = [] ∨ handle_playlist url env = [url] ∨
      ∃ info, (env.extract none = Except.ok info ∨
               env.extract (some env.cookieInput) = Except.ok info) ∧
        handle_playlist url env = collectOrSelf url info) ∧
    (∀ e, env.extract none = Except.error e → authRestricted e = false →
       handle_playlist url env = [url]) := by
  constructor
  · match hf : env.extract none with
    | Except.ok info =>
      exact Or.inr (Or.inr ⟨info, Or.inl rfl, by simp [handle_playlist, hf]⟩)
    | Except.error e =>
      by_cases ha : authRestricted e = true
      · by_cases hc : (env.cookieInput != "" && env.cookieExists) = true
        · match hr : env.extract (some env.cookieInput) with
          | Except.ok info =>
            exact Or.inr (Or.inr ⟨info, Or.inr rfl,
              by simp [handle_playlist, hf, ha, hc, hr]⟩)
          | Except.error e2 =>
            exact Or.inr (Or.inl (by simp [handle_playlist, hf, ha, hc, hr]))
        · simp only [Bool.not_eq_true] at hc
          exact Or.inl (by simp [handle_playlist, hf, ha, hc])
      · simp only [Bool.not_eq_true] at ha
        exact Or.inr (Or.inl (by simp [handle_playlist, hf, ha]))
  · intro e hf ha
    simp [handle_playlist, hf, ha]

/-- Environment whose extraction fails with a message lacking any auth
marker. -/
def notFoundEnv : ResolveEnv where
  extract := fun _ => Except.error "HTTP Error 404: Not Found"
  cookieInput := ""
  cookieExists := false

/-- Witness for C4: a non-auth extraction failure degrades to the
original url as a single item. -/
theorem handle_playlist_never_raises_witness :
    handle_playlist "u" notFoundEnv = ["u"] :=
  (handle_playlist_never_raises "u" notFoundEnv).2 "HTTP Error 404: Not Found" rfl (by decide)

/-- The dispatch/collect structure of `main`'s batch loop
(Yt_downloader.py lines 410-423): one `download_worker` submission per
resolved link, every future collected via `as_completed`/`result()`.
Concurrency is collapsed to the per-item function applications, which is
faithful because each worker call depends only on its own url and engine
behaviour; `engines u` is the engine's per-attempt behaviour for url
`u`. -/
def runBatch (links : List String) (retriesArg : Option Int)
    (engines : String → Nat → Bool) : List (Bool × Nat) :=
  links.map (fun u => download_worker retriesArg (engines u))

/-- C6: the batch produces exactly one outcome per dispatched item — the
outcome list has one entry per link, positionally (no drop, no
duplicate), and the outcome at position `i` is exactly the worker run on
link `i`; moreover the outcome of one item is unchanged under any change
to the engine behaviour of the other items, so one item's permanent
failure cannot cancel or suppress another's outcome. -/
theorem runBatch_one_outcome_per_item (links : List String)
    (retriesArg : Option Int) (engines : String → Nat → Bool) :
    (runBatch links retriesArg engines).length = links.length ∧
    (∀ i, (runBatch links retriesArg engines).get? i =
      (links.get? i).map (fun u => download_worker retriesArg (engines u))) ∧
    (∀ engines2 : String → Nat → Bool, ∀ i u, links.get? i = some u →
      engines u = engines2 u →
      (runBatch links retriesArg engines).get? i =
        (runBatch links retriesArg engines2).get? i) := by
  refine ⟨by simp [runBatch], ?_, ?_⟩
  · intro i
    simp [runBatch, List.get?_map]
  · intro engines2 i u hu hagree
    rw [List.get?_eq_getElem?] at hu
    simp [runBatch, List.getElem?_map, hu, hagree]

/-- Witness for C6: a 2-link batch where the first link's engine always
fails and the second always succeeds — both outcomes are present, and
the second link's outcome is the same as in a batch where the first link
always succeeds. -/
theorem runBatch_one_outcome_per_item_witness :
    (runBatch ["u1", "u2"] (some 2) (fun u _ => u == "u2")).get? 1 =
      some (true, 1) ∧
    (runBatch ["u1", "u2"] (some 2) (fun u _ => u == "u2")).get? 1 =
      (runBatch ["u1", "u2"] (some 2) (fun _ _ => true)).get? 1 := by
  constructor
  · have h := (runBatch_one_outcome_per_item ["u1", "u2"] (some 2)
      (fun u _ => u == "u2")).2.1 1
    rw [h]
    rfl
  · exact (runBatch_one_outcome_per_item ["u1", "u2"] (some 2)
      (fun u _ => u == "u2")).2.2 (fun _ _ => true) 1 "u2" rfl rfl

/-- The configuration state `choose_download_target` consults, one field
per `config.get` key (Yt_downloader.py lines 268-277): `none` models an
absent or `None`-valued key, and `categories` models the
insertion-ordered mapping. -/
structure AppConfig where
  categories : List (String × String)
  default_category : Option String
  last_used_path : Option String
  download_path : Option String
  deriving DecidableEq, Repr

/-- Python `cats[k]` lookup guarded by `k in cats` on the ordered
mapping model. -/
def dictFind (d : List (String × String)) (k : String) : Option String :=
  (d.find? (fun p => p.1 == k)).map Prod.snd

/-- Python truthiness of an optional string (`None` and `""` are
falsy). -/
def truthyStr : Option String → Bool
  | none => false
  | some s => s != ""

/-- The fallback of `choose_download_target` when the default category
does not apply: `elif last_used: ... else: config.get("download_path",
os.getcwd())` (Yt_downloader.py lines 274-277). -/
def lastOrBase (config : AppConfig) (cwd : String) : String :=
  match config.last_used_path with
  | some s => if s != "" then s else config.download_path.getD cwd
  | none => config.download_path.getD cwd

/-- The target presented by `choose_download_target` (Yt_downloader.py
lines 267-277): the default category's path when the default category is
truthy and a key of the mapping, else the last-used/base fallback. -/
def currentTarget (config : AppConfig) (cwd : String) : String :=
  match config.default_category with
  | some dc =>
    if dc != "" then
      match dictFind config.categories dc with
      | some p => p
      | none => lastOrBase config cwd
    else lastOrBase config cwd
  | none => lastOrBase config cwd

/-- `choose_download_target` on the confirm path (the user presses Enter
without overriding, Yt_downloader.py lines 283-286): returns the
presented target and writes it through to `last_used_path`. -/
def choose_download_target (config : AppConfig) (cwd : String) : String × AppConfig :=
  let t := currentTarget config cwd
  (t, { config with last_used_path := some t })

/-- Whether the default-category branch of `choose_download_target`
applies: `default_cat and default_cat in cats` (Yt_downloader.py line
272). -/
def defaultApplies (config : AppConfig) : Bool :=
  match config.default_category with
  | some dc => dc != "" && (dictFind config.categories dc).isSome
  | none => false

theorem lastOrBase_truthy (config : AppConfig) (cwd lp : String)
    (hlp : config.last_used_path = some lp) (hne : lp ≠ "") :
    lastOrBase config cwd = lp := by
  simp [lastOrBase, hlp, hne]

theorem lastOrBase_falsy (config : AppConfig) (cwd : String)
    (hlast : truthyStr config.last_used_path = false) :
    lastOrBase config cwd = config.download_path.getD cwd := by
  unfold lastOrBase
  match hl : config.last_used_path with
  | none => rfl
  | some s =>
    have hs : s = "" := by simpa [truthyStr, hl] using hlast
    simp [hs]

theorem currentTarget_not_default (config : AppConfig) (cwd : String)
    (hdef : defaultApplies config = false) :
    currentTarget config cwd = lastOrBase config cwd := by
  unfold currentTarget
  match hdc : config.default_category with
  | none => rfl
  | some dc =>
    by_cases hb : dc = ""
    · simp [hb]
    · have hfind : dictFind config.categories dc = none := by
        simp [defaultApplies, hdc] at hdef
        exact hdef hb
      simp [hb, hfind]

/-- C7: on the confirm path, `choose_download_target` follows the
precedence default-category path, else last-used path, else base
download path (with the process working directory as final fallback). -/
theorem choose_download_target_precedence (config : AppConfig) (cwd : String) :
    (∀ dc, config.default_category = some dc → dc ≠ "" →
      ∀ p, dictFind config.categories dc = some p →
        (choose_download_target config cwd).1 = p) ∧
    (defaultApplies config = false → ∀ lp, config.last_used_path = some lp →
      lp ≠ "" → (choose_download_target config cwd).1 = lp) ∧
    (defaultApplies config = false → truthyStr config.last_used_path = false →
      (choose_download_target config cwd).1 = config.download_path.getD cwd) := by
  refine ⟨?_, ?_, ?_⟩
  · intro dc hdc hne p hp
    show currentTarget config cwd = p
    unfold currentTarget
    simp [hdc, hne, hp]
  · intro hdef lp hlp hne
    show currentTarget config cwd = lp
    rw [currentTarget_not_default config cwd hdef,
      lastOrBase_truthy config cwd lp hlp hne]
  · intro hdef hlast
    show currentTarget config cwd = config.download_path.getD cwd
    rw [currentTarget_not_default config cwd hdef,
      lastOrBase_falsy config cwd hlast]

/-- Witness for C7: with default category "Music" mapped to "/m" and
last-used "/x" the confirm path returns "/m"; with no default category
it returns "/x". -/
theorem choose_download_target_precedence_witness :
    (choose_download_target
      ⟨[("Music", "/m")], some "Music", some "/x", some "/base"⟩ "/cwd").1 = "/m" ∧
    (choose_download_target
      ⟨[("Music", "/m")], none, some "/x", some "/base"⟩ "/cwd").1 = "/x" := by
  constructor
  · exact (choose_download_target_precedence
      ⟨[("Music", "/m")], some "Music", some "/x", some "/base"⟩ "/cwd").1
      "Music" rfl (by decide) "/m" (by decide)
  · exact (choose_download_target_precedence
      ⟨[("Music", "/m")], none, some "/x", some "/base"⟩ "/cwd").2.1
      (by decide) "/x" rfl (by decide)

/-- The persisted values read by `load_config` (category_manager.py
lines 34-48) that parameterize a run: `none` models a key absent from
the persisted file, which `load_config` fills from `DEFAULT_CONFIG`
(`retries: 3`, `max_parallel_downloads: 2`); a present key keeps its
stored value. -/
structure StoredConfig where
  retries : Option Int
  max_parallel_downloads : Option Int
  deriving DecidableEq, Repr

/-- The retry limit in effect for a run: `load_config`'s
fill-missing-keys defaulting followed by `main`'s
`config.get("retries", 3)` (Yt_downloader.py line 403). -/
def effectiveRetries (s : StoredConfig) : Int :=
  s.retries.getD 3

/-- The parallelism in effect for a run:
`config.get("max_parallel_downloads", 2)` (Yt_downloader.py line 404)
after `load_config` defaulting. -/
def effectiveMaxParallel (s : StoredConfig) : Int :=
  s.max_parallel_downloads.getD 2

/-- C8 counterexample: a persisted config explicitly storing
`retries: 0` and `max_parallel_downloads: 0` keeps both values 0 after
loading and defaulting, so the claimed ≥ 1 invariant fails. -/
theorem effective_values_zero_counterexample :
    effectiveRetries ⟨some 0, some 0⟩ = 0 ∧
    effectiveMaxParallel ⟨some 0, some 0⟩ = 0 ∧
    ¬(1 ≤ effectiveRetries ⟨some 0, some 0⟩) :=
  ⟨rfl, rfl, by decide⟩

/-- C8 (amended): after loading and defaulting, the retry limit and
parallelism in effect are both ≥ 1 provided every explicitly stored
value is ≥ 1 (a missing key defaults to 3 resp. 2); an explicitly stored
value — including 0 — is kept verbatim. -/
theorem effective_values_ge_one (s : StoredConfig)
    (hr : ∀ n, s.retries = some n → 1 ≤ n)
    (hm : ∀ n, s.max_parallel_downloads = some n → 1 ≤ n) :
    1 ≤ effectiveRetries s ∧ 1 ≤ effectiveMaxParallel s := by
  constructor
  · unfold effectiveRetries
    match h : s.retries with
    | none => decide
    | some n => simpa using hr n h
  · unfold effectiveMaxParallel
    match h : s.max_parallel_downloads with
    | none => decide
    | some n => simpa using hm n h

/-- Witness for C8 (amended): a config missing `retries` and storing
`max_parallel_downloads = 4` yields effective values 3 and 4. -/
theorem effective_values_ge_one_witness :
    1 ≤ effectiveRetries ⟨none, some 4⟩ ∧
    1 ≤ effectiveMaxParallel ⟨none, some 4⟩ :=
  effective_values_ge_one ⟨none, some 4⟩
    (by intro n h; simp at h) (by intro n h; simp at h; omega)

/-- The category state `manage_categories` mutates
(category_manager.py lines 87-163): the insertion-ordered
name-to-path mapping and the optional default-category name. -/
structure CatConfig where
  categories : List (String × String)
  default_category : Option String
  deriving DecidableEq, Repr

/-- Python dict assignment `d[k] = v` on the insertion-ordered mapping
model: update in place when the key exists, else append. -/
def dictInsert (d : List (String × String)) (k v : String) :
    List (String × String) :=
  if d.any (fun p => p.1 == k) then
    d.map (fun p => if p.1 == k then (k, v) else p)
  else d ++ [(k, v)]

/-- Python `d.pop(k)` (the removal part). -/
def dictPop (d : List (String × String)) (k : String) :
    List (String × String) :=
  d.filter (fun p => p.1 != k)

/-- The add branch of `manage_categories` (category_manager.py lines
101-113): an empty name or a cancelled folder popup leaves the config
unchanged; otherwise the category is inserted. -/
def addCategory (c : CatConfig) (name : String) (picked : Option String) :
    CatConfig :=
  if name = "" then c
  else
    match picked with
    | none => c
    | some path => { c with categories := dictInsert c.categories name path }

/-- The rename branch of `manage_categories` (category_manager.py lines
114-130): `idx` is the 0-based index into the listed items (out of
range leaves the config unchanged, as the source's range check does);
renaming the stored default renames it too.  The entry's path stands for
the value `cats.pop(old_name)` returns, which coincides with it because
dict keys are unique. -/
def renameCategory (c : CatConfig) (idx : Nat) (new_name : String) :
    CatConfig :=
  match c.categories.get? idx with
  | none => c
  | some (old_name, old_path) =>
    if new_name = "" then c
    else
      { categories := dictInsert (dictPop c.categories old_name) new_name old_path
        default_category :=
          if c.default_category = some old_name then some new_name
          else c.default_category }

/-- The delete branch of `manage_categories` (category_manager.py lines
131-148): only the literal confirmation "YES" deletes; deleting the
stored default resets it to null. -/
def deleteCategory (c : CatConfig) (idx : Nat) (confirm : String) :
    CatConfig :=
  match c.categories.get? idx with
  | none => c
  | some (name, _) =>
    if confirm = "YES" then
      { categories := dictPop c.categories name
        default_category :=
          if c.default_category = some name then none
          else c.default_category }
    else c

/-- The set-default branch of `manage_categories` (category_manager.py
lines 149-159). -/
def setDefaultCategory (c : CatConfig) (idx : Nat) : CatConfig :=
  match c.categories.get? idx with
  | none => c
  | some (name, _) => { c with default_category := some name }

/-- The C9 invariant: the stored default category is null or a key of
the categories mapping. -/
def defaultConsistent (c : CatConfig) : Bool :=
  match c.default_category with
  | none => true
  | some d => c.categories.any (fun p => p.1 == d)

theorem dictInsert_mem_key (d : List (String × String)) (k v x : String)
    (hx : d.any (fun p => p.1 == x) = true) :
    (dictInsert d k v).any (fun p => p.1 == x) = true := by
  unfold dictInsert
  by_cases hk : d.any (fun p => p.1 == k) = true
  · simp only [hk, if_true, List.any_eq_true] at hx ⊢
    obtain ⟨p, hp, hpx⟩ := hx
    refine ⟨if p.1 == k then (k, v) else p, List.mem_map.mpr ⟨p, hp, rfl⟩, ?_⟩
    by_cases hpk : (p.1 == k) = true
    · have h1 : p.1 = x := by simpa using hpx
      have h2 : p.1 = k := by simpa using hpk
      simp [hpk, ← h1, h2]
    · simpa [hpk] using hpx
  · simp only [Bool.not_eq_true] at hk
    simp [hk, hx]

theorem dictInsert_self_key (d : List (String × String)) (k v : String) :
    (dictInsert d k v).any (fun p => p.1 == k) = true := by
  unfold dictInsert
  by_cases hk : d.any (fun p => p.1 == k) = true
  · rw [if_pos hk]
    simp only [List.any_eq_true] at hk ⊢
    obtain ⟨p, hp, hpk⟩ := hk
    exact ⟨(k, v), List.mem_map.mpr ⟨p, hp, by simp [hpk]⟩, by simp⟩
  · simp only [Bool.not_eq_true] at hk
    simp [hk]

theorem dictPop_mem_key (d : List (String × String)) (k x : String)
    (hne : x ≠ k) (hx : d.any (fun p => p.1 == x) = true) :
    (dictPop d k).any (fun p => p.1 == x) = true := by
  unfold dictPop
  simp only [List.any_eq_true] at hx ⊢
  obtain ⟨p, hp, hpx⟩ := hx
  refine ⟨p, List.mem_filter.mpr ⟨hp, ?_⟩, hpx⟩
  have h1 : p.1 = x := by simpa using hpx
  simp [h1, hne]

theorem get?_key_mem (d : List (String × String)) (idx : Nat)
    (name path : String) (h : d.get? idx = some (name, path)) :
    d.any (fun p => p.1 == name) = true := by
  simp only [List.any_eq_true]
  exact ⟨(name, path), List.get?_mem h, by simp⟩

/-- C9: every single category-management operation preserves the
invariant that the stored default category is null or a key of the
mapping; renaming the default renames the stored default, and deleting
it resets the default to null. -/
theorem manage_categories_default_invariant (c : CatConfig)
    (hinv : defaultConsistent c = true) :
    (∀ name picked, defaultConsistent (addCategory c name picked) = true) ∧
    (∀ idx new_name, defaultConsistent (renameCategory c idx new_name) = true) ∧
    (∀ idx confirm, defaultConsistent (deleteCategory c idx confirm) = true) ∧
    (∀ idx, defaultConsistent (setDefaultCategory c idx) = true) ∧
    (∀ idx old_name old_path new_name,
      c.categories.get? idx = some (old_name, old_path) → new_name ≠ "" →
      c.default_category = some old_name →
      (renameCategory c idx new_name).default_category = some new_name) ∧
    (∀ idx name path, c.categories.get? idx = some (name, path) →
      c.default_category = some name →
      (deleteCategory c idx "YES").default_category = none) := by
  refine ⟨?_, ?_, ?_, ?_, ?_, ?_⟩
  · intro name picked
    unfold addCategory
    by_cases hn : name = ""
    · simp [hn, hinv]
    · match picked with
      | none => simp [hn, hinv]
      | some path =>
        simp only [hn, if_false]
        unfold defaultConsistent at hinv ⊢
        match hd : c.default_category with
        | none => rfl
        | some d =>
          rw [hd] at hinv
          exact dictInsert_mem_key c.categories name path d hinv
  · intro idx new_name
    unfold renameCategory
    match hg : c.categories.get? idx with
    | none => exact hinv
    | some (old_name, old_path) =>
      by_cases hn : new_name = ""
      · simp [hn, hinv]
      · simp only [hn, if_false]
        by_cases hd : c.default_category = some old_name
        · simp only [hd, if_pos rfl]
          unfold defaultConsistent
          exact dictInsert_self_key (dictPop c.categories old_name) new_name old_path
        · simp only [if_neg hd]
          unfold defaultConsistent at hinv ⊢
          match hdc : c.default_category with
          | none => rfl
          | some d =>
            rw [hdc] at hinv hd
            have hdo : d ≠ old_name := fun h => hd (by rw [h])
            exact dictInsert_mem_key _ new_name old_path d
              (dictPop_mem_key c.categories old_name d hdo hinv)
  · intro idx confirm
    unfold deleteCategory
    match hg : c.categories.get? idx with
    | none => exact hinv
    | some (name, path) =>
      by_cases hc : confirm = "YES"
      · simp only [hc, if_pos rfl]
        by_cases hd : c.default_category = some name
        · simp [hd, defaultConsistent]
        · simp only [if_neg hd]
          unfold defaultConsistent at hinv ⊢
          match hdc : c.default_category with
          | none => rfl
          | some d =>
            rw [hdc] at hinv hd
            have hdn : d ≠ name := fun h => hd (by rw [h])
            exact dictPop_mem_key c.categories name d hdn hinv
      · simp [hc, hinv]
  · intro idx
    unfold setDefaultCategory
    match hg : c.categories.get? idx with
    | none => exact hinv
    | some (name, path) =>
      unfold defaultConsistent
      exact get?_key_mem c.categories idx name path hg
  · intro idx old_name old_path new_name hg hn hd
    unfold renameCategory
    rw [hg]
    simp [hn, hd]
  · intro idx name path hg hd
    unfold deleteCategory
    rw [hg]
    simp [hd]

/-- Witness for C9: starting from `{Music ↦ /m, Podcasts ↦ /p}` with
default "Music", renaming index 0 to "Audio" renames the default, and
the invariant holds afterwards; deleting index 0 from the original
config resets the default to null. -/
theorem manage_categories_default_invariant_witness :
    (renameCategory ⟨[("Music", "/m"), ("Podcasts", "/p")], some "Music"⟩
        0 "Audio").default_category = some "Audio" ∧
    defaultConsistent (renameCategory
        ⟨[("Music", "/m"), ("Podcasts", "/p")], some "Music"⟩ 0 "Audio") = true ∧
    (deleteCategory ⟨[("Music", "/m"), ("Podcasts", "/p")], some "Music"⟩
        0 "YES").default_category = none := by
  have h := manage_categories_default_invariant
    ⟨[("Music", "/m"), ("Podcasts", "/p")], some "Music"⟩ (by decide)
  refine ⟨?_, h.2.1 0 "Audio", ?_⟩
  · exact h.2.2.2.2.1 0 "Music" "/m" "Audio" rfl (by decide) rfl
  · exact h.2.2.2.2.2 0 "Music" "/m" rfl rfl

end YtDlpManager
